import Mathlib

/-!
Shallow embedding of the Bluesky AI news bot (`src/main.py`) for checking
the natural-language specification against the code.

Strings from the Python code are modelled as `List Char` where character
counting matters (post truncation) and as `String` elsewhere.  Timestamps
(`datetime` values compared with `<=`) are modelled as `Nat`.  Python
dictionary lookups that may be absent (`dict.get`) are modelled as
`Option`.  Fallible code paths (`try`/`except`) are modelled with
`Except`, with the surrounding handler turning errors into the value the
Python handler returns.
-/

/-- PostRef is a (uri, cid) pair identifying one post, as used in the
`reply` field that `create_post` builds (main.py lines 86-96). -/
structure PostRef where
  uri : String
  cid : String
deriving DecidableEq, Repr

/-- ReplyRef is the `post_data["reply"]` object: a root reference and a
parent reference (main.py lines 87-96). -/
structure ReplyRef where
  root : PostRef
  parent : PostRef
deriving DecidableEq, Repr

/-- buildReplyRef embeds the reply construction inside
`BskyAINewsBot.create_post` (main.py lines 86-96): when `reply_to` is
given, both `root` and `parent` are set to the uri and cid of `reply_to`
itself. -/
def buildReplyRef (reply_to : PostRef) : ReplyRef :=
  { root := { uri := reply_to.uri, cid := reply_to.cid }
    parent := { uri := reply_to.uri, cid := reply_to.cid } }

/-- Notification models the fields of a Bluesky notification that
`should_reply_to_notification` reads (main.py lines 199-214):
`author.did` (possibly absent), `reason`, and `indexedAt` (a timestamp,
modelled as `Nat`). -/
structure Notification where
  authorDid : Option String
  reason : String
  indexedAt : Nat
deriving DecidableEq, Repr

/-- should_reply_to_notification embeds
`BskyAINewsBot.should_reply_to_notification` (main.py lines 199-214):
reject if the did of the author equals the did of the bot itself; reject if the
reason is neither "reply" nor "mention"; reject if the notification
time is not strictly after `last_checked_notification`; otherwise
accept. -/
def should_reply_to_notification (selfDid : String) (lastChecked : Nat)
    (n : Notification) : Bool :=
  if n.authorDid = some selfDid then false
  else if n.reason ≠ "reply" ∧ n.reason ≠ "mention" then false
  else if n.indexedAt ≤ lastChecked then false
  else true

/-- handle_notifications embeds `BskyAINewsBot.handle_notifications`
(main.py lines 284-297): it walks the fetched notification list in
order, replies (via `create_post`) to every notification that passes
`should_reply_to_notification` and for which `generate_reply` returned
non-empty text, and finally sets `last_checked_notification` to the
current wall-clock time `now`.  The result is the list of notifications
that were replied to, paired with the new checkpoint. -/
def handle_notifications (selfDid : String) (lastChecked : Nat) (now : Nat)
    (notifs : List Notification) (replyFor : Notification → List Char) :
    List Notification × Nat :=
  (notifs.filter (fun n =>
      should_reply_to_notification selfDid lastChecked n
        && !(replyFor n).isEmpty),
   now)

/-- Article models the fields of a news article that
`BskyAINewsBot.generate_post` reads: the source name lookup
`article.get("source").get("name")` in effect,
with `none` standing for an absent source name key (main.py lines 162,
169).  Title and description only feed the generation prompt, whose text
content the spec leaves out of scope. -/
structure Article where
  sourceName : Option (List Char)
deriving DecidableEq

/-- sourceAttribution is the ` (via {source})` suffix string appended in
`generate_post` (main.py line 164). -/
def sourceAttribution (source : List Char) : List Char :=
  " (via ".toList ++ source ++ ")".toList

/-- generate_post_body embeds the success path of
`BskyAINewsBot.generate_post` before the final platform-limit cut
(main.py lines 159-164): the generated text is truncated to 250
characters, then the source attribution suffix is appended when the
source name is non-empty (Python string truthiness of `if source:`). -/
def generate_post_body (genText : List Char) (a : Article) : List Char :=
  let post := genText.take 250
  let source := a.sourceName.getD []
  if !source.isEmpty then post ++ sourceAttribution source else post

/-- generate_post_success embeds the full success path of
`BskyAINewsBot.generate_post` (main.py lines 159-166), ending with the
`post[:280]` cut to the platform limit. -/
def generate_post_success (genText : List Char) (a : Article) : List Char :=
  (generate_post_body genText a).take 280

/-- fallback_post embeds the `except` branch of
`BskyAINewsBot.generate_post` (main.py line 169): a static string with
the source name of the article interpolated, defaulting to "Unknown Source"
when the key is absent. -/
def fallback_post (a : Article) : List Char :=
  "Interesting AI development... what are your thoughts? (via ".toList
    ++ a.sourceName.getD "Unknown Source".toList
    ++ ")".toList

/-- generate_post embeds `BskyAINewsBot.generate_post` (main.py lines
142-169) as a whole: `genResult` is the outcome of the generation
service call (`none` when `model.generate_content` raises); on failure
the handler returns the static fallback instead of propagating. -/
def generate_post (a : Article) (genResult : Option (List Char)) : List Char :=
  match genResult with
  | some t => generate_post_success t a
  | none => fallback_post a

/-- WorkerCfg records the steady-state sleep and the recovery sleep of
one worker loop in `BskyAINewsBot.start` (main.py lines 357-382). -/
structure WorkerCfg where
  interval : Nat
  recoveryDelay : Nat
deriving DecidableEq, Repr

/-- postWorkerCfg is `run_post_worker`: `time.sleep(1800)` after a good
iteration, `time.sleep(60)` after a caught exception (main.py lines
357-364). -/
def postWorkerCfg : WorkerCfg := { interval := 1800, recoveryDelay := 60 }

/-- periodicWorkerCfg is `run_periodic_posting`: sleep 1800 normally,
60 on failure (main.py lines 366-373). -/
def periodicWorkerCfg : WorkerCfg := { interval := 1800, recoveryDelay := 60 }

/-- notificationWorkerCfg is `run_notification_worker`: sleep 60
normally, 60 on failure (main.py lines 375-382). -/
def notificationWorkerCfg : WorkerCfg :=
  { interval := 60, recoveryDelay := 60 }

/-- workerRun embeds the `while self.running:` loop shared by the three
workers (main.py lines 357-382) over a finite trace of iteration
outcomes (`true` = the work function returned, `false` = it raised an
exception that the `except` clause caught and logged).  It returns the
number of iterations the loop completed and the sleep taken after each:
the loop body never exits on a failed iteration, it merely sleeps the
recovery delay instead of the interval. -/
def workerRun (cfg : WorkerCfg) : List Bool → Nat × List Nat
  | [] => (0, [])
  | o :: rest =>
      let r := workerRun cfg rest
      (r.1 + 1, (if o then cfg.interval else cfg.recoveryDelay) :: r.2)

/-- monitorInterval is the `time.sleep(30)` of the monitoring loop in
`BskyAINewsBot.start` (main.py line 410). -/
def monitorInterval : Nat := 30

/-- WorkerState is the monitor-visible state of one worker task:
whether its thread `is_alive()`, plus a count of the restart events the
monitor has performed for it (each "died, restarting..." log line,
main.py lines 412-423, is one such event; the Python code keeps no
explicit counter, the count here is the number of times the monitor has
re-created the thread). -/
structure WorkerState where
  alive : Bool
  restartCount : Nat
deriving DecidableEq, Repr

/-- monitor_check embeds one per-task check of the monitoring loop in
`BskyAINewsBot.start` (main.py lines 412-423): if the thread is not
alive, a fresh thread is created and started (so the task is alive
again) and one restart event is recorded; an alive task is left
untouched. -/
def monitor_check (s : WorkerState) : WorkerState :=
  if s.alive then s
  else { alive := true, restartCount := s.restartCount + 1 }

/-- monitor_cycle embeds one iteration of the `while True:` monitoring
loop (main.py lines 409-423): sleep `monitorInterval`, then check each
supervised task in turn. -/
def monitor_cycle (tasks : List WorkerState) : List WorkerState :=
  tasks.map monitor_check

/-- PostError classifies the exceptions that can arise inside the `try`
block of `BskyAINewsBot.create_post` (main.py lines 74-108): a failure
raised by `self.authenticate()` (main.py lines 68-70 re-raise it), or a
failed submission (`response.raise_for_status()` on the createRecord
call, e.g. a 401 for an expired token). -/
inductive PostError where
  | authFailed
  | submitFailed
deriving DecidableEq, Repr

/-- TokenState models `self.access_token`: `none` when no token is held
(Python `if not self.access_token:`), `some true` a valid token,
`some false` an expired token that the server will reject. -/
def TokenState : Type := Option Bool

/-- createPostAttempt embeds the `try` body of
`BskyAINewsBot.create_post` (main.py lines 74-108) together with a
count of how many times `self.authenticate()` was invoked during the
attempt.  `authOk` is whether the createSession call would succeed, and
`submitOk` whether the createRecord call would succeed given a valid
token.  Authentication runs only when no token is held; a held token,
valid or expired, is used as-is.  Submission succeeds exactly when the
token used is valid and `submitOk`; otherwise `raise_for_status`
raises, and no re-authentication happens inside the attempt. -/
def createPostAttempt (tok : Option Bool) (authOk : Bool) (submitOk : Bool) :
    Except PostError String × Nat :=
  match tok with
  | none =>
      if authOk then
        (if submitOk then Except.ok "at://did/app.bsky.feed.post/new"
         else Except.error PostError.submitFailed, 1)
      else (Except.error PostError.authFailed, 1)
  | some valid =>
      (if valid && submitOk then Except.ok "at://did/app.bsky.feed.post/new"
       else Except.error PostError.submitFailed, 0)

/-- create_post embeds the public behaviour of
`BskyAINewsBot.create_post` (main.py lines 72-111): the `except` clause
catches every failure of the attempt, logs it and returns `None`; on
success the uri of the new record is returned. -/
def create_post (tok : Option Bool) (authOk : Bool) (submitOk : Bool) :
    Option String :=
  match (createPostAttempt tok authOk submitOk).1 with
  | Except.ok uri => some uri
  | Except.error _ => none

/-- createPostAuthCalls is the number of `self.authenticate()` calls
made during one `create_post` attempt (main.py lines 75-76 are the only
call site inside it). -/
def createPostAuthCalls (tok : Option Bool) (authOk : Bool)
    (submitOk : Bool) : Nat :=
  (createPostAttempt tok authOk submitOk).2

/-- authenticateRaises models `BskyAINewsBot.authenticate` (main.py
lines 56-70) against the social API collaborator: the createSession
endpoint rejects a request whose identifier or password is absent
(`os.getenv` returned `None`), and `serverAccepts` abstracts its
verdict on credentials that are present; on rejection
`raise_for_status` raises and `authenticate` re-raises. -/
def authenticateRaises (handle appPassword : Option String)
    (serverAccepts : Bool) : Bool :=
  !(handle.isSome && appPassword.isSome && serverAccepts)

/-- StartResult is the observable outcome of `BskyAINewsBot.start`
(main.py lines 352-428): either the startup `authenticate()` raised,
the `except` clause logged it and the process exited via `sys.exit(1)`
with no worker thread ever created, or authentication succeeded and the
three worker threads were started. -/
inductive StartResult where
  | fatalExit
  | workersRunning (workerCount : Nat)
deriving DecidableEq, Repr

/-- bot_start embeds the startup sequence of `BskyAINewsBot.start`
(main.py lines 352-392): `self.authenticate()` runs first; only when it
returns are the post, periodic and notification worker threads created
and started. -/
def bot_start (handle appPassword : Option String) (serverAccepts : Bool) :
    StartResult :=
  if authenticateRaises handle appPassword serverAccepts then
    StartResult.fatalExit
  else StartResult.workersRunning 3

/-- main_read_config embeds the credential loading in `main` (main.py
lines 452-454): `os.getenv` for BSKY_HANDLE and BSKY_PASSWORD with no
default and no presence check, so
an unset variable flows through as `None`. -/
def main_read_config (envHandle envPassword : Option String) :
    Option String × Option String :=
  (envHandle, envPassword)

/-!
Theorems settling the claims.
-/

/-- C1 counterexample: for a second-level reply (the bot answers an
intermediate reply at uri "at://mid" with cid "cidM", inside a thread
whose root post is "at://root" with cid "cidR"), the built reply target
sets `root` to the intermediate reply itself, not to the root of the
owning thread, contradicting the claim that the same root (R, C) is
kept. -/
theorem buildReplyRef_second_level_root_is_not_thread_root :
    buildReplyRef { uri := "at://mid", cid := "cidM" } =
      { root := { uri := "at://mid", cid := "cidM" },
        parent := { uri := "at://mid", cid := "cidM" } } ∧
    ¬ (buildReplyRef { uri := "at://mid", cid := "cidM" }).root =
        { uri := "at://root", cid := "cidR" } := by
  constructor
  · rfl
  · intro h
    have huri : "at://mid" = "at://root" := congrArg PostRef.uri h
    exact absurd huri (by decide)

/-- C1 amended: `create_post` sets both `root` and `parent` of the reply
reference to the uri and cid of the post being answered.  For a
first-level reply to a thread root (R, C) this coincides with the
claimed root = (R, C), parent = (R, C); for a second-level reply both
references are the id and content-id of the intermediate reply, so the
root of the owning thread is not kept. -/
theorem buildReplyRef_root_and_parent_are_answered_post (p : PostRef) :
    buildReplyRef p = { root := p, parent := p } := rfl

/-- C2 counterexample: the code keeps no record of which comments were
already answered, only the wall-clock checkpoint written at the end of
each poll.  A reply notification from another user with server
timestamp 100 is answered in a first poll cycle whose end-of-cycle
local clock reads 50 (the local clock lags the server timestamp), the
checkpoint becomes 50, and the very next poll cycle answers the same
comment again: the same inbound comment produces two replies, refuting
the claimed idempotence for one full poll cycle after first
processing. -/
theorem handle_notifications_replies_twice_to_same_comment :
    (handle_notifications "did:plc:bot" 0 50
        [{ authorDid := some "did:plc:alice", reason := "reply", indexedAt := 100 }]
        (fun _ => "ok".toList)).1 =
      [{ authorDid := some "did:plc:alice", reason := "reply", indexedAt := 100 }] ∧
    (handle_notifications "did:plc:bot" 0 50
        [{ authorDid := some "did:plc:alice", reason := "reply", indexedAt := 100 }]
        (fun _ => "ok".toList)).2 = 50 ∧
    (handle_notifications "did:plc:bot" 50 120
        [{ authorDid := some "did:plc:alice", reason := "reply", indexedAt := 100 }]
        (fun _ => "ok".toList)).1 =
      [{ authorDid := some "did:plc:alice", reason := "reply", indexedAt := 100 }] := by
  refine ⟨?_, rfl, ?_⟩ <;> decide

/-- C2 amended: deduplication rests solely on the timestamp checkpoint:
a notification whose server timestamp is at or before the checkpoint in
force is never replied to in that cycle.  Since each cycle ends by
setting the checkpoint to the current local wall-clock time, a comment
answered in one cycle is not answered again in any later cycle,
provided its timestamp does not exceed the end-of-cycle local clock
value recorded as the checkpoint. -/
theorem handle_notifications_checkpoint_dedup (selfDid : String)
    (chk now : Nat) (notifs : List Notification)
    (replyFor : Notification → List Char) (n : Notification)
    (h : n.indexedAt ≤ chk) :
    n ∉ (handle_notifications selfDid chk now notifs replyFor).1 := by
  intro hmem
  rw [handle_notifications] at hmem
  have hp := (List.mem_filter.mp hmem).2
  have hsr : should_reply_to_notification selfDid chk n = true :=
    (Bool.and_eq_true _ _ ▸ hp).1
  have hfalse : should_reply_to_notification selfDid chk n = false := by
    rw [should_reply_to_notification]
    by_cases h1 : n.authorDid = some selfDid
    · rw [if_pos h1]
    · rw [if_neg h1]
      by_cases h2 : n.reason ≠ "reply" ∧ n.reason ≠ "mention"
      · rw [if_pos h2]
      · rw [if_neg h2, if_pos h]
  rw [hfalse] at hsr
  exact Bool.false_ne_true hsr

/-- C2 amended witness: the concrete comment with timestamp 100 is not
replied to once the checkpoint has reached 100. -/
theorem handle_notifications_checkpoint_dedup_witness :
    ({ authorDid := some "did:plc:alice", reason := "reply",
       indexedAt := 100 } : Notification).indexedAt ≤ 100 ∧
    ({ authorDid := some "did:plc:alice", reason := "reply",
       indexedAt := 100 } : Notification) ∉
      (handle_notifications "did:plc:bot" 100 200
        [{ authorDid := some "did:plc:alice", reason := "reply", indexedAt := 100 }]
        (fun _ => "ok".toList)).1 :=
  ⟨by decide,
   handle_notifications_checkpoint_dedup "did:plc:bot" 100 200
     [{ authorDid := some "did:plc:alice", reason := "reply", indexedAt := 100 }]
     (fun _ => "ok".toList)
     { authorDid := some "did:plc:alice", reason := "reply", indexedAt := 100 }
     (by decide)⟩

/-- C3 confirmed: `should_reply_to_notification` accepts a notification
exactly when the author did differs from the did of the bot, the
reason is "reply" or "mention", and the timestamp is strictly after the
last-checked checkpoint; each of the three rejection rules alone forces
a false result. -/
theorem should_reply_to_notification_iff (selfDid : String)
    (lastChecked : Nat) (n : Notification) :
    should_reply_to_notification selfDid lastChecked n = true ↔
      (n.authorDid ≠ some selfDid ∧
       (n.reason = "reply" ∨ n.reason = "mention") ∧
       lastChecked < n.indexedAt) := by
  rw [should_reply_to_notification]
  split_ifs with h1 h2 h3
  · simp [h1]
  · constructor
    · intro hf; exact hf.elim
    · rintro ⟨-, hr, -⟩
      rcases hr with hr | hr
      · exact absurd hr h2.1
      · exact absurd hr h2.2
  · constructor
    · intro hf; exact hf.elim
    · rintro ⟨-, -, ht⟩
      exact absurd (Nat.le_of_lt_succ (Nat.lt_succ_of_lt ht)) (by omega)
  · constructor
    · intro _
      refine ⟨h1, ?_, by omega⟩
      by_cases hr : n.reason = "reply"
      · exact Or.inl hr
      · exact Or.inr (by tauto)
    · intro _; rfl

/-- C4 counterexample: the notification worker sleeps 60 after a failed
iteration and also 60 between normal iterations, so its recovery delay
is not strictly shorter than its steady-state interval as the claim
requires of every registered worker task. -/
theorem notification_worker_recovery_not_shorter :
    notificationWorkerCfg.recoveryDelay = 60 ∧
    notificationWorkerCfg.interval = 60 ∧
    (workerRun notificationWorkerCfg [false]).2 = [60] ∧
    ¬ notificationWorkerCfg.recoveryDelay < notificationWorkerCfg.interval := by
  refine ⟨rfl, rfl, rfl, ?_⟩
  decide

/-- C4 amended: every worker loop completes every iteration of any
outcome trace — a failed iteration is logged and followed by the
recovery sleep, never by loop termination — and after each iteration
the loop sleeps the steady-state interval on success and the recovery
delay on failure.  The recovery delay is strictly shorter than the
interval for the post worker and the periodic-posting worker (60 vs
1800) but equal to it for the notification worker (60 vs 60). -/
theorem worker_failures_never_terminate_loop :
    (∀ (cfg : WorkerCfg) (outcomes : List Bool),
        (workerRun cfg outcomes).1 = outcomes.length ∧
        (workerRun cfg outcomes).2 =
          outcomes.map (fun o => if o then cfg.interval else cfg.recoveryDelay)) ∧
    postWorkerCfg.recoveryDelay < postWorkerCfg.interval ∧
    periodicWorkerCfg.recoveryDelay < periodicWorkerCfg.interval ∧
    notificationWorkerCfg.recoveryDelay = notificationWorkerCfg.interval := by
  refine ⟨?_, by decide, by decide, rfl⟩
  intro cfg outcomes
  induction outcomes with
  | nil => exact ⟨rfl, rfl⟩
  | cons o rest ih =>
      refine ⟨?_, ?_⟩
      · simpa [workerRun] using ih.1
      · simpa [workerRun] using ih.2

/-- C5 confirmed: the monitoring loop in `start` runs every 30
time-units; each check leaves every supervised task alive (a dead task
is restarted within the very cycle that observes it, so it stays
unrestarted for at most one monitor cycle) and performs exactly one
restart per observed crash: the restart count grows by one when the
task was dead and is unchanged when it was alive. -/
theorem monitor_restarts_dead_workers_once :
    monitorInterval = 30 ∧
    (∀ s : WorkerState,
        (monitor_check s).alive = true ∧
        (monitor_check s).restartCount =
          (if s.alive then s.restartCount else s.restartCount + 1)) ∧
    (∀ tasks : List WorkerState,
        (monitor_cycle tasks).all (fun t => t.alive) = true) := by
  refine ⟨rfl, ?_, ?_⟩
  · intro s
    cases hs : s.alive <;> simp [monitor_check, hs]
  · intro tasks
    rw [List.all_eq_true]
    intro t ht
    rcases List.mem_map.mp ht with ⟨u, -, hu⟩
    rw [← hu, monitor_check]
    split_ifs with halive
    · exact halive
    · rfl

/-- C6 confirmed: for every generated body and every article, the text
returned by the success path of `generate_post` is at most 280
characters — the platform limit — and it is produced by first cutting
the generated body to the fixed 250-character budget, then appending
the source attribution suffix to that already-truncated body, and
finally applying the 280-character platform cut. -/
theorem generate_post_respects_platform_limit (g : List Char) (a : Article) :
    (generate_post a (some g)).length ≤ 280 ∧
    generate_post a (some g) = (generate_post_body g a).take 280 ∧
    g.take 250 <+: generate_post_body g a ∧
    (g.take 250).length ≤ 250 := by
  refine ⟨?_, rfl, ?_, ?_⟩
  · show ((generate_post_body g a).take 280).length ≤ 280
    rw [List.length_take]
    exact Nat.min_le_left _ _
  · rw [generate_post_body]
    split_ifs
    · exact List.prefix_append _ _
    · exact List.prefix_rfl
  · rw [List.length_take]
    exact Nat.min_le_left _ _

/-- C7 confirmed: when the generation service raises on every call, the
rendering path returns the static fallback rather than propagating the
failure; the fallback is never empty, and whenever the article carries
a source name it occurs inside the fallback text. -/
theorem generate_post_fallback_on_generation_failure (a : Article) :
    generate_post a none = fallback_post a ∧
    fallback_post a ≠ [] ∧
    (∀ s : List Char, a.sourceName = some s → s <:+: fallback_post a) := by
  refine ⟨rfl, ?_, ?_⟩
  · rw [fallback_post]
    intro hnil
    have hlen := congrArg List.length hnil
    rw [List.length_append, List.length_append] at hlen
    simp at hlen
  · intro s hs
    refine ⟨"Interesting AI development... what are your thoughts? (via ".toList,
      ")".toList, ?_⟩
    rw [fallback_post, hs]
    rfl

/-- C7 witness: with a concrete article whose source name is
"TechCrunch", the fallback is returned on generation failure, is
non-empty, and contains the source name. -/
theorem generate_post_fallback_witness :
    generate_post { sourceName := some "TechCrunch".toList } none =
      fallback_post { sourceName := some "TechCrunch".toList } ∧
    fallback_post { sourceName := some "TechCrunch".toList } ≠ [] ∧
    "TechCrunch".toList <:+:
      fallback_post { sourceName := some "TechCrunch".toList } := by
  obtain ⟨h1, h2, h3⟩ :=
    generate_post_fallback_on_generation_failure
      { sourceName := some "TechCrunch".toList }
  exact ⟨h1, h2, h3 _ rfl⟩

/-- C8 counterexample: with an expired token held (the submission then
fails due to the expired credential), `create_post` attempts
re-authentication zero times — not exactly once as claimed — and the
attempt is declared failed by returning `none`. -/
theorem create_post_no_reauth_on_expired_token :
    createPostAuthCalls (some false) true true = 0 ∧
    create_post (some false) true true = none ∧
    ¬ createPostAuthCalls (some false) true true = 1 := by
  refine ⟨rfl, rfl, ?_⟩
  decide

/-- C8 amended: `create_post` calls `authenticate` exactly once per
attempt when no token is held and never otherwise; a held token is used
as-is, so a submission that fails because the held token is expired
triggers no re-authentication and the attempt simply fails with
`none`. -/
theorem create_post_auth_only_when_token_absent (tok : Option Bool)
    (authOk submitOk : Bool) :
    createPostAuthCalls tok authOk submitOk =
      (if tok = none then 1 else 0) ∧
    (tok = some false → create_post tok authOk submitOk = none) := by
  constructor
  · cases tok <;> cases authOk <;>
      simp [createPostAuthCalls, createPostAttempt]
  · intro h
    subst h
    rfl

/-- C8 amended witness: with an expired token and a failing submission,
no authentication call is made and the attempt returns `none`. -/
theorem create_post_auth_only_when_token_absent_witness :
    createPostAuthCalls (some false) false false = 0 ∧
    create_post (some false) false false = none := by
  obtain ⟨h1, h2⟩ := create_post_auth_only_when_token_absent
    (some false) false false
  exact ⟨h1, h2 rfl⟩

/-- C9 confirmed: when the account identifier or the account secret is
absent from the environment, the credentials flow unchecked into
`authenticate`, whose createSession call is rejected, and `start` exits
fatally before any worker thread is created — the missing value never
surfaces as a runtime error inside a running worker, because the
workers only start after `authenticate` returns. -/
theorem missing_config_is_fatal_before_workers
    (envHandle envPassword : Option String) (serverAccepts : Bool)
    (h : envHandle = none ∨ envPassword = none) :
    bot_start (main_read_config envHandle envPassword).1
        (main_read_config envHandle envPassword).2 serverAccepts =
      StartResult.fatalExit := by
  rcases h with h | h <;> subst h
  · rfl
  · rw [main_read_config, bot_start, authenticateRaises]
    cases envHandle <;> simp

/-- C9 witness: with the account identifier unset and a secret present,
startup exits fatally with no worker running. -/
theorem missing_config_is_fatal_before_workers_witness :
    ((none : Option String) = none ∨ (some "secret" : Option String) = none) ∧
    bot_start (main_read_config none (some "secret")).1
        (main_read_config none (some "secret")).2 true =
      StartResult.fatalExit :=
  ⟨Or.inl rfl,
   missing_config_is_fatal_before_workers none (some "secret") true (Or.inl rfl)⟩

/-- C10 confirmed: `create_post` is total at its public interface: for
every token state and every outcome of the authentication and
submission calls, it either returns the uri of the new record (exactly
when the inner attempt succeeded) or returns `none` (exactly when the
inner attempt raised, including an authentication failure triggered
inside it); no error escapes to the caller, and in particular an
authentication failure inside the attempt yields `none`. -/
theorem create_post_total_interface (tok : Option Bool)
    (authOk submitOk : Bool) :
    ((∃ uri, (createPostAttempt tok authOk submitOk).1 = Except.ok uri ∧
        create_post tok authOk submitOk = some uri) ∨
     ((∃ e, (createPostAttempt tok authOk submitOk).1 = Except.error e) ∧
        create_post tok authOk submitOk = none)) ∧
    create_post none false submitOk = none := by
  constructor
  · cases h : (createPostAttempt tok authOk submitOk).1 with
    | ok uri =>
        exact Or.inl ⟨uri, rfl, by simp [create_post, h]⟩
    | error e =>
        exact Or.inr ⟨⟨e, rfl⟩, by simp [create_post, h]⟩
  · rfl
